import Mathlib

/-!
Verification of `provisioner.py` from cevoaustralia/AAD_AWS_provisioning.

The script registers a SAML identity provider in an AWS account, reconciles a
CloudFormation stack that creates a federated trust role, looks up the role's
ARN, and emits a JSON "appRoles" manifest.  We embed its data model and control
flow shallowly: Python dictionaries parsed from the parameters file become
`PEntry` values (fields optional, since a dictionary may lack a key), the
exception types of `provisioner.exceptions` become the inductive `PErr`, and
`main`'s try/except control flow becomes explicit matching on `Except` results
supplied by an `Env` of collaborator outcomes, together with a trace of
externally observable events (collaborator calls, log lines, manifest
emission).
-/

namespace Provisioner

/-- Substring test on lists of characters: does the list start with `needle`?
Mirrors the head comparison of Python's `in` operator on strings. -/
def listStartsWith : List Char → List Char → Bool
  | [], _ => true
  | _ :: _, [] => false
  | a :: as, b :: bs => a == b && listStartsWith as bs

/-- `listHasSub needle hay`: does `hay` contain `needle` as a contiguous
sublist?  This is Python's `needle in hay` on strings. -/
def listHasSub (needle : List Char) : List Char → Bool
  | [] => needle.isEmpty
  | c :: rest => listStartsWith needle (c :: rest) || listHasSub needle rest

/-- `strContains hay needle` embeds Python's `needle in hay` for strings. -/
def strContains (hay needle : String) : Bool :=
  listHasSub needle.toList hay.toList

/-- One entry of the CloudFormation parameters file: a JSON object that may or
may not carry the `ParameterKey` / `ParameterValue` fields (Python dictionaries
do not enforce the shape; a missing field raises `KeyError` on access). -/
structure PEntry where
  parameterKey : Option String
  parameterValue : Option String
deriving DecidableEq, Repr

/-- The exceptions visible to `main`, from `provisioner.exceptions`, plus the
built-in `KeyError` that `param['ParameterKey']` raises on a malformed entry,
and a catch-all for any other collaborator failure. -/
inductive PErr where
  | samlProviderExists
  | noUpdateToPerform
  | stackExists
  | roleNotFound
  | invalidTemplate
  | keyError (field : String)
  | other (msg : String)
deriving DecidableEq, Repr

/-- The body of the `for param in params` loop of `process_params`
(provisioner.py lines 42-46): read `param['ParameterKey']` (KeyError when the
field is absent), then override `ParameterValue` once for each marker the key
contains as a substring. -/
def processEntry (saml_provider_arn role_name : String) (p : PEntry) :
    Except PErr PEntry :=
  match p.parameterKey with
  | none => .error (.keyError "ParameterKey")
  | some k =>
    let p1 := if strContains k "SAMLProviderARN" then
        { p with parameterValue := some saml_provider_arn } else p
    let p2 := if strContains k "RoleName" then
        { p1 with parameterValue := some role_name } else p1
    .ok p2

/-- `process_params` (provisioner.py lines 33-48), with the `json.load` of the
parameters file factored out: applies the loop body to every entry.  The Python
loop mutates in place and raises out of the loop on a malformed entry; since
the partially mutated list is then discarded by the propagating exception, the
`Except`-valued traversal has the same observable behaviour. -/
def process_params (params : List PEntry) (saml_provider_arn role_name : String) :
    Except PErr (List PEntry) :=
  match params with
  | [] => .ok []
  | p :: rest =>
    match processEntry saml_provider_arn role_name p with
    | .error e => .error e
    | .ok q =>
      match process_params rest saml_provider_arn role_name with
      | .error e => .error e
      | .ok qs => .ok (q :: qs)

/-- Relation between an input template entry `t` and its processed counterpart
`o`: the key is preserved; an entry whose key contains neither marker is passed
through unmodified; a key containing `SAMLProviderARN` (and not `RoleName`)
gets the provider ARN; a key containing `RoleName` gets the role name (this is
the final override, so it also covers keys containing both markers). -/
def boundEntry (arn role : String) (t o : PEntry) : Prop :=
  o.parameterKey = t.parameterKey ∧
  (∀ k, t.parameterKey = some k → strContains k "SAMLProviderARN" = false →
      strContains k "RoleName" = false → o = t) ∧
  (∀ k, t.parameterKey = some k → strContains k "SAMLProviderARN" = true →
      strContains k "RoleName" = false → o.parameterValue = some arn) ∧
  (∀ k, t.parameterKey = some k → strContains k "RoleName" = true →
      o.parameterValue = some role)

instance (arn role : String) (t o : PEntry) :
    Decidable (boundEntry arn role t o) := by
  unfold boundEntry; infer_instance

/-- Lexicographic comparison of character lists, mirroring the string order
Python's `json.dumps(..., sort_keys=True)` sorts object keys by. -/
def listLeB : List Char → List Char → Bool
  | [], _ => true
  | _ :: _, [] => false
  | a :: as, b :: bs => if a < b then true else if b < a then false else listLeB as bs

/-- Lexicographic `≤` on strings as a boolean. -/
def strLeB (a b : String) : Bool :=
  listLeB a.toList b.toList

/-- Insert a key/value pair into a key-sorted association list. -/
def insertByKey (p : String × String) : List (String × String) → List (String × String)
  | [] => [p]
  | q :: rest => if strLeB p.1 q.1 then p :: q :: rest else q :: insertByKey p rest

/-- Insertion sort of an association list by key: the key ordering pass of
`json.dumps(blob, sort_keys=True, indent=4)` at provisioner.py line 95. -/
def sortByKey : List (String × String) → List (String × String)
  | [] => []
  | p :: rest => insertByKey p (sortByKey rest)

def quoteJ (s : String) : String :=
  "\"" ++ s ++ "\""

/-- Render the sorted pairs in `json.dumps` style with `indent=4`. -/
def renderPairs : List (String × String) → String
  | [] => ""
  | [(k, v)] => quoteJ k ++ ": " ++ quoteJ v
  | (k, v) :: q :: rest => quoteJ k ++ ": " ++ quoteJ v ++ ",\n    " ++ renderPairs (q :: rest)

/-- `json.dumps(blob, sort_keys=True, indent=4)` on a flat string-valued JSON
object: serialize the pairs with keys in sorted order. -/
def jsonDumpsSorted (blob : List (String × String)) : String :=
  "\x7b\n    " ++ renderPairs (sortByKey blob) ++ "\n\x7d"

/-- Modelled from the spec: `provisioner.ad_helpers.approles.generate_ad_role`
is imported by provisioner.py but its module is not under src/.  The spec
describes the ManifestBlob as `{ roleName, roleDescription, trustReference,
providerReference, ... }` built purely from the four arguments, so we model the
returned JSON object as a flat association list carrying those four fields. -/
def generate_ad_role (role_name role_description trust_role_arn saml_provider_arn : String) :
    List (String × String) :=
  [("roleName", role_name), ("roleDescription", role_description),
   ("trustReference", trust_role_arn), ("providerReference", saml_provider_arn)]

/-- The arguments `main` consumes (the `args` namespace built by argparse). -/
structure Args where
  saml_metadata : String
  template_path : String
  params_file : String
  stack_name : String
  provider_name : String
  role_name : String
  role_description : String
deriving DecidableEq, Repr

/-- Outcomes the external collaborators return in one run: each field is the
result `main` observes when it makes the corresponding call.
`paramsFileContent` is the parsed JSON content of the parameters file, and
`lookUpRole` already carries the extracted `role_data['Role']['Arn']`. -/
structure Env where
  addSamlProvider : Except PErr String
  lookUpSamlProvider : Except PErr String
  paramsFileContent : List PEntry
  validateTemplate : Except PErr Unit
  createStack : Except PErr String
  updateStack : Except PErr String
  lookUpRole : Except PErr String
deriving Repr

inductive LogLevel where
  | debug
  | info
  | warning
deriving DecidableEq, Repr

/-- Externally observable events of one run: collaborator calls, log lines,
and the manifest emission of provisioner.py line 95 (debug logs internal to
`process_params` are not traced). -/
inductive Event where
  | callAddSamlProvider (metadata provider_name : String)
  | callLookUpSamlProvider (provider_name : String)
  | callValidateTemplate (template_path : String)
  | callCreateStack (stack_name template_path : String) (parameters : List PEntry)
  | callUpdateStack (stack_name template_path : String) (parameters : List PEntry)
  | callLookUpRole (role_name : String)
  | log (lvl : LogLevel) (msg : String)
  | emitManifest (blob : String)
deriving DecidableEq, Repr

/-- Provisioner.py lines 58-63: try `add_saml_provider`; on
`SAMLProviderExistsError` fall back to `look_up_saml_provider`; any other
exception propagates. -/
def providerPhase (env : Env) (args : Args) : List Event × Except PErr String :=
  let ev := [Event.log .info "Adding SAML provider to Account...",
             Event.callAddSamlProvider args.saml_metadata args.provider_name]
  match env.addSamlProvider with
  | .ok arn => (ev ++ [Event.log .debug ("Identity Provider: " ++ arn)], .ok arn)
  | .error e =>
    if e = .samlProviderExists then
      let ev2 := ev ++ [Event.log .info ("SAML provider " ++ args.provider_name ++
                          " already exists. Looking up ARN..."),
                        Event.callLookUpSamlProvider args.provider_name]
      match env.lookUpSamlProvider with
      | .ok arn => (ev2 ++ [Event.log .debug ("Identity Provider: " ++ arn)], .ok arn)
      | .error e2 => (ev2, .error e2)
    else (ev, .error e)

/-- Provisioner.py lines 65-78: bind the parameters, validate the template,
then create the stack; on `StackExistsError` update instead; on the update
failing with `NoUpdateToPerformError` log and continue; any other exception
propagates. -/
def stackPhase (env : Env) (args : Args) (saml_provider_arn : String) :
    List Event × Except PErr Unit :=
  let ev0 := [Event.log .info "Adding Role to account..."]
  match process_params env.paramsFileContent saml_provider_arn args.role_name with
  | .error e => (ev0, .error e)
  | .ok parameters =>
    let ev1 := ev0 ++ [Event.log .debug ("Validating template " ++ args.template_path),
                       Event.callValidateTemplate args.template_path]
    match env.validateTemplate with
    | .error e => (ev1, .error e)
    | .ok _ =>
      let ev2 := ev1 ++ [Event.callCreateStack args.stack_name args.template_path parameters]
      match env.createStack with
      | .ok stack_id =>
          (ev2 ++ [Event.log .info ("Stack created. ID: " ++ stack_id)], .ok ())
      | .error e =>
        if e = .stackExists then
          let ev3 := ev2 ++ [Event.log .info ("Stack " ++ args.stack_name ++
                                " already exists. Updating stack instead."),
                             Event.callUpdateStack args.stack_name args.template_path parameters]
          match env.updateStack with
          | .ok _ => (ev3 ++ [Event.log .debug "Stack updated successfully."], .ok ())
          | .error e2 =>
            if e2 = .noUpdateToPerform then
              (ev3 ++ [Event.log .debug "Stack does not require Updating."], .ok ())
            else (ev3, .error e2)
        else (ev2, .error e)

/-- Provisioner.py lines 80-87: look up the role ARN; on `RoleNotFoundError`
log a warning naming the role and re-raise; any other exception propagates
without the warning. -/
def rolePhase (env : Env) (args : Args) : List Event × Except PErr String :=
  let ev0 := [Event.log .info "Looking up role ARN...",
              Event.callLookUpRole args.role_name]
  match env.lookUpRole with
  | .ok trust_role_arn =>
      (ev0 ++ [Event.log .debug ("Role Found: " ++ trust_role_arn)], .ok trust_role_arn)
  | .error e =>
    if e = .roleNotFound then
      (ev0 ++ [Event.log .warning ("Couldn't find role " ++ args.role_name)], .error e)
    else (ev0, .error e)

/-- Provisioner.py lines 89-95: build the appRoles blob from
`args.role_name`, `args.role_description`, the trust role ARN and the provider
ARN, and emit its sorted-key JSON dump. -/
def manifestPhase (args : Args) (trust_role_arn saml_provider_arn : String) : List Event :=
  [Event.log .info "Generating appRoles JSON blob...",
   Event.emitManifest (jsonDumpsSorted
     (generate_ad_role args.role_name args.role_description trust_role_arn saml_provider_arn))]

/-- The whole of `main` (provisioner.py lines 50-95): the four phases in
sequence, each error propagating and aborting the rest of the run.  Returns
the event trace and the run's outcome. -/
def runMain (env : Env) (args : Args) : List Event × Except PErr Unit :=
  match providerPhase env args with
  | (ev1, .error e) => (ev1, .error e)
  | (ev1, .ok saml_provider_arn) =>
    match stackPhase env args saml_provider_arn with
    | (ev2, .error e) => (ev1 ++ ev2, .error e)
    | (ev2, .ok _) =>
      match rolePhase env args with
      | (ev3, .error e) => (ev1 ++ ev2 ++ ev3, .error e)
      | (ev3, .ok trust_role_arn) =>
        (ev1 ++ ev2 ++ ev3 ++ manifestPhase args trust_role_arn saml_provider_arn, .ok ())

/-- Calls that mutate the stack. -/
def isMutationCall : Event → Bool
  | .callCreateStack _ _ _ => true
  | .callUpdateStack _ _ _ => true
  | _ => false

/-- Calls to `validate_template`. -/
def isValidateCall : Event → Bool
  | .callValidateTemplate _ => true
  | _ => false

/-- Manifest emissions. -/
def isManifestEmission : Event → Bool
  | .emitManifest _ => true
  | _ => false

/-- No event before the first `validate_template` call is a stack mutation. -/
def noMutationBeforeValidate : List Event → Bool
  | [] => true
  | e :: rest =>
    if isValidateCall e then true
    else !isMutationCall e && noMutationBeforeValidate rest

/-- The provider reference the run settles on: either registration succeeded
with `arn`, or it failed with `SAMLProviderExistsError` and the lookup
returned `arn`. -/
def providerResolvesTo (env : Env) (arn : String) : Prop :=
  env.addSamlProvider = .ok arn ∨
    (env.addSamlProvider = .error .samlProviderExists ∧
      env.lookUpSamlProvider = .ok arn)

/-- The stack reconciliation step converges: create succeeds, or create fails
with `StackExistsError` and update either succeeds or reports
`NoUpdateToPerformError`. -/
def stackConverges (env : Env) : Prop :=
  (∃ sid, env.createStack = .ok sid) ∨
    (env.createStack = .error .stackExists ∧
      ((∃ r, env.updateStack = .ok r) ∨ env.updateStack = .error .noUpdateToPerform))

/-- Every parameter entry whose key contains the `RoleName` marker carries the
given role name as its value. -/
def roleNameBound (role : String) (ps : List PEntry) : Prop :=
  ∀ p ∈ ps, ∀ k, p.parameterKey = some k → strContains k "RoleName" = true →
    p.parameterValue = some role

/-- Every parameter entry whose key contains the `SAMLProviderARN` marker (and
not the `RoleName` marker) carries the given provider ARN as its value. -/
def providerArnBound (arn : String) (ps : List PEntry) : Prop :=
  ∀ p ∈ ps, ∀ k, p.parameterKey = some k → strContains k "SAMLProviderARN" = true →
    strContains k "RoleName" = false → p.parameterValue = some arn

/-- One argparse argument declaration: destination name, whether `required=True`
was passed, and the declared default (`none` when no `default=` was given, in
which case argparse supplies Python's `None`). -/
structure ArgSpec where
  dest : String
  required : Bool
  default : Option String
deriving DecidableEq, Repr

/-- The argparse surface of provisioner.py lines 100-134, one `ArgSpec` per
`add_argument` call, in source order. -/
def cliArgs : List ArgSpec :=
  [⟨"saml_metadata", true, none⟩,
   ⟨"template_path", true, none⟩,
   ⟨"params_file", false, none⟩,
   ⟨"stack_name", false, some "federated-trust-role-and-policy"⟩,
   ⟨"provider_name", false, some "new_saml_provider"⟩,
   ⟨"role_name", false, some "new_saml_role"⟩,
   ⟨"role_description", false, some "A role created by"⟩]

/-- The claim's wording of the CLI surface (stated from the spec, to be
compared with `cliArgs` from the source): exactly the metadata and template
locations are required, and each of the five optional arguments has a default
value. -/
def c7ClaimedSurface : Prop :=
  (∀ s ∈ cliArgs, s.required = true ↔
    (s.dest = "saml_metadata" ∨ s.dest = "template_path")) ∧
  (∀ s ∈ cliArgs, s.required = false → s.default ≠ none)

instance : Decidable c7ClaimedSurface := by
  unfold c7ClaimedSurface; infer_instance

/-- A small concrete parameters template used to witness the universally
quantified claims: one entry per marker and one unrelated entry. -/
def sampleTemplate : List PEntry :=
  [⟨some "SAMLProviderARN", some "placeholder-arn"⟩,
   ⟨some "RoleName", some "placeholder-role"⟩,
   ⟨some "Environment", some "test"⟩]

/-- Concrete arguments used to witness the run-level claims. -/
def sampleArgs : Args :=
  ⟨"metadata.xml", "template.yaml", "params.json",
   "federated-trust-role-and-policy", "new_saml_provider",
   "new_saml_role", "A role created by"⟩

/-- `sampleTemplate` after binding with the sample provider ARN and role name. -/
def psHappy : List PEntry :=
  [⟨some "SAMLProviderARN", some "arn-provider"⟩,
   ⟨some "RoleName", some "new_saml_role"⟩,
   ⟨some "Environment", some "test"⟩]

/-- Collaborator outcomes of a fresh-account run where every call succeeds. -/
def envHappy : Env :=
  ⟨.ok "arn-provider", .ok "arn-provider", sampleTemplate, .ok (),
   .ok "stack-1", .ok "update-resp", .ok "arn-role"⟩

/-- A run against an account whose stack already exists and needs no update. -/
def envC2 : Env :=
  { envHappy with createStack := .error .stackExists,
                  updateStack := .error .noUpdateToPerform }

/-- A run against an account whose SAML provider already exists. -/
def envC3 : Env :=
  { envHappy with addSamlProvider := .error .samlProviderExists }

/-- A run in which the trust role cannot be found after stack convergence. -/
def envC4 : Env :=
  { envHappy with lookUpRole := .error .roleNotFound }

/-- A run whose CloudFormation template fails validation. -/
def envC5 : Env :=
  { envHappy with validateTemplate := .error .invalidTemplate }

/-- A parameters file whose second entry lacks the `ParameterKey` field. -/
def badTemplate : List PEntry :=
  [⟨some "SAMLProviderARN", some "x"⟩, ⟨none, some "y"⟩]

/-- A run whose parameters file is malformed. -/
def envC8 : Env :=
  { envHappy with paramsFileContent := badTemplate }

theorem processEntry_key_eq (arn role : String) (p q : PEntry)
    (h : processEntry arn role p = .ok q) : q.parameterKey = p.parameterKey := by
  unfold processEntry at h
  cases hk : p.parameterKey with
  | none => rw [hk] at h; exact absurd h (by simp)
  | some k =>
    rw [hk] at h
    simp only at h
    split at h <;> split at h <;>
      simp only [Except.ok.injEq] at h <;> subst h <;> simp [hk]

theorem processEntry_none (arn role : String) (p : PEntry)
    (h : p.parameterKey = none) :
    processEntry arn role p = .error (.keyError "ParameterKey") := by
  unfold processEntry
  rw [h]

theorem processEntry_untouched (arn role : String) (p : PEntry) (k : String)
    (hk : p.parameterKey = some k)
    (h1 : strContains k "SAMLProviderARN" = false)
    (h2 : strContains k "RoleName" = false) :
    processEntry arn role p = .ok p := by
  unfold processEntry
  rw [hk]
  simp [h1, h2]

theorem processEntry_arn (arn role : String) (p : PEntry) (k : String)
    (hk : p.parameterKey = some k)
    (h1 : strContains k "SAMLProviderARN" = true)
    (h2 : strContains k "RoleName" = false) :
    processEntry arn role p = .ok { p with parameterValue := some arn } := by
  unfold processEntry
  rw [hk]
  simp [h1, h2]

theorem processEntry_role (arn role : String) (p : PEntry) (k : String)
    (hk : p.parameterKey = some k)
    (h2 : strContains k "RoleName" = true) :
    processEntry arn role p = .ok { p with parameterValue := some role } := by
  unfold processEntry
  rw [hk]
  simp only [h2, if_true]
  split <;> simp [hk]

theorem processEntry_boundEntry (arn role : String) (t o : PEntry)
    (h : processEntry arn role t = .ok o) : boundEntry arn role t o := by
  refine ⟨processEntry_key_eq arn role t o h, ?_, ?_, ?_⟩
  · intro k hk h1 h2
    rw [processEntry_untouched arn role t k hk h1 h2] at h
    exact (Except.ok.injEq _ _ ▸ h).symm
  · intro k hk h1 h2
    rw [processEntry_arn arn role t k hk h1 h2] at h
    have : o = { t with parameterValue := some arn } :=
      (Except.ok.injEq _ _ ▸ h).symm
    rw [this]
  · intro k hk h2
    rw [processEntry_role arn role t k hk h2] at h
    have : o = { t with parameterValue := some role } :=
      (Except.ok.injEq _ _ ▸ h).symm
    rw [this]

theorem processEntry_some_ok (arn role : String) (p : PEntry) (k : String)
    (hk : p.parameterKey = some k) :
    ∃ q, processEntry arn role p = .ok q := by
  unfold processEntry
  rw [hk]
  exact ⟨_, rfl⟩

theorem process_params_forall2 (arn role : String) :
    ∀ params out, process_params params arn role = .ok out →
      List.Forall₂ (boundEntry arn role) params out := by
  intro params
  induction params with
  | nil =>
    intro out h
    unfold process_params at h
    simp only [Except.ok.injEq] at h
    rw [← h]
    exact .nil
  | cons p rest ih =>
    intro out h
    unfold process_params at h
    cases he : processEntry arn role p with
    | error e => rw [he] at h; exact absurd h (by simp)
    | ok q =>
      rw [he] at h
      cases hr : process_params rest arn role with
      | error e => rw [hr] at h; exact absurd h (by simp)
      | ok qs =>
        rw [hr] at h
        simp only [Except.ok.injEq] at h
        rw [← h]
        exact .cons (processEntry_boundEntry arn role p q he) (ih qs hr)

theorem forall2_keys_eq (arn role : String) :
    ∀ T out, List.Forall₂ (boundEntry arn role) T out →
      out.map PEntry.parameterKey = T.map PEntry.parameterKey := by
  intro T out h
  induction h with
  | nil => rfl
  | cons hb _ ih => simp only [List.map_cons, ih, hb.1]

theorem process_params_ok_of_keys (arn role : String) :
    ∀ params : List PEntry, (∀ e ∈ params, e.parameterKey ≠ none) →
      ∃ out, process_params params arn role = .ok out := by
  intro params
  induction params with
  | nil => intro _; exact ⟨[], rfl⟩
  | cons p rest ih =>
    intro hkeys
    cases hk : p.parameterKey with
    | none => exact absurd hk (hkeys p (List.mem_cons_self p rest))
    | some k =>
      obtain ⟨q, hq⟩ := processEntry_some_ok arn role p k hk
      obtain ⟨qs, hqs⟩ := ih (fun e he => hkeys e (List.mem_cons_of_mem p he))
      refine ⟨q :: qs, ?_⟩
      unfold process_params
      rw [hq, hqs]

theorem process_params_error_of_missing_key (arn role : String) :
    ∀ params : List PEntry, (∃ e ∈ params, e.parameterKey = none) →
      process_params params arn role = .error (.keyError "ParameterKey") := by
  intro params
  induction params with
  | nil => intro h; exact absurd h (by simp)
  | cons p rest ih =>
    intro h
    cases hk : p.parameterKey with
    | none =>
      unfold process_params
      rw [processEntry_none arn role p hk]
    | some k =>
      obtain ⟨e, he, hke⟩ := h
      rcases List.mem_cons.mp he with rfl | hmem
      · exact absurd hk (by rw [hke]; intro hc; cases hc)
      · obtain ⟨q, hq⟩ := processEntry_some_ok arn role p k hk
        unfold process_params
        rw [hq, ih ⟨e, hmem, hke⟩]

theorem forall2_bounds (arn role : String) :
    ∀ T out, List.Forall₂ (boundEntry arn role) T out →
      roleNameBound role out ∧ providerArnBound arn out := by
  intro T out h
  induction h with
  | nil =>
    constructor
    · intro p hp; exact absurd hp (List.not_mem_nil p)
    · intro p hp; exact absurd hp (List.not_mem_nil p)
  | @cons t o T' out' hb _ ih =>
    obtain ⟨ih1, ih2⟩ := ih
    constructor
    · intro p hp k hk h1
      rcases List.mem_cons.mp hp with rfl | hmem
      · exact hb.2.2.2 k (hb.1.symm.trans hk) h1
      · exact ih1 p hmem k hk h1
    · intro p hp k hk h1 h2
      rcases List.mem_cons.mp hp with rfl | hmem
      · exact hb.2.2.1 k (hb.1.symm.trans hk) h1 h2
      · exact ih2 p hmem k hk h1 h2

theorem process_params_bounds (arn role : String) (params out : List PEntry)
    (h : process_params params arn role = .ok out) :
    roleNameBound role out ∧ providerArnBound arn out :=
  forall2_bounds arn role params out (process_params_forall2 arn role params out h)

theorem providerPhase_ok_char (env : Env) (args : Args) (arn : String)
    (h : env.addSamlProvider = .ok arn) :
    providerPhase env args =
      ([Event.log .info "Adding SAML provider to Account...",
        Event.callAddSamlProvider args.saml_metadata args.provider_name,
        Event.log .debug ("Identity Provider: " ++ arn)], .ok arn) := by
  unfold providerPhase
  rw [h]
  simp

theorem providerPhase_exists_char (env : Env) (args : Args) (arn : String)
    (h1 : env.addSamlProvider = .error .samlProviderExists)
    (h2 : env.lookUpSamlProvider = .ok arn) :
    providerPhase env args =
      ([Event.log .info "Adding SAML provider to Account...",
        Event.callAddSamlProvider args.saml_metadata args.provider_name,
        Event.log .info ("SAML provider " ++ args.provider_name ++
          " already exists. Looking up ARN..."),
        Event.callLookUpSamlProvider args.provider_name,
        Event.log .debug ("Identity Provider: " ++ arn)], .ok arn) := by
  unfold providerPhase
  rw [h1, h2]
  simp

theorem providerPhase_lookup_fails_char (env : Env) (args : Args) (e2 : PErr)
    (h1 : env.addSamlProvider = .error .samlProviderExists)
    (h2 : env.lookUpSamlProvider = .error e2) :
    providerPhase env args =
      ([Event.log .info "Adding SAML provider to Account...",
        Event.callAddSamlProvider args.saml_metadata args.provider_name,
        Event.log .info ("SAML provider " ++ args.provider_name ++
          " already exists. Looking up ARN..."),
        Event.callLookUpSamlProvider args.provider_name], .error e2) := by
  unfold providerPhase
  rw [h1, h2]
  simp

theorem providerPhase_facts (env : Env) (args : Args) :
    (providerPhase env args).1.any isMutationCall = false ∧
    (providerPhase env args).1.any isValidateCall = false ∧
    (providerPhase env args).1.any isManifestEmission = false := by
  unfold providerPhase
  cases ha : env.addSamlProvider with
  | ok arn => simp [isMutationCall, isValidateCall, isManifestEmission]
  | error e =>
    by_cases he : e = PErr.samlProviderExists
    · subst he
      simp only [if_pos rfl]
      cases hl : env.lookUpSamlProvider <;>
        simp [isMutationCall, isValidateCall, isManifestEmission]
    · simp [he, isMutationCall, isValidateCall, isManifestEmission]

theorem providerPhase_add_fails_char (env : Env) (args : Args) (e : PErr)
    (h1 : env.addSamlProvider = .error e)
    (hne : e ≠ PErr.samlProviderExists) :
    providerPhase env args =
      ([Event.log .info "Adding SAML provider to Account...",
        Event.callAddSamlProvider args.saml_metadata args.provider_name], .error e) := by
  unfold providerPhase
  rw [h1]
  simp [hne]

theorem providerPhase_ok_inv (env : Env) (args : Args) (ev1 : List Event) (arn : String)
    (h : providerPhase env args = (ev1, .ok arn)) :
    providerResolvesTo env arn := by
  cases ha : env.addSamlProvider with
  | ok a =>
    rw [providerPhase_ok_char env args a ha] at h
    have h2 : (Except.ok a : Except PErr String) = .ok arn := congrArg Prod.snd h
    rw [Except.ok.injEq] at h2
    subst h2
    exact Or.inl ha
  | error e =>
    by_cases he : e = PErr.samlProviderExists
    · subst he
      cases hl : env.lookUpSamlProvider with
      | ok a =>
        rw [providerPhase_exists_char env args a ha hl] at h
        have h2 : (Except.ok a : Except PErr String) = .ok arn := congrArg Prod.snd h
        rw [Except.ok.injEq] at h2
        subst h2
        exact Or.inr ⟨ha, hl⟩
      | error e2 =>
        rw [providerPhase_lookup_fails_char env args e2 ha hl] at h
        have h2 : (Except.error e2 : Except PErr String) = .ok arn := congrArg Prod.snd h
        simp at h2
    · rw [providerPhase_add_fails_char env args e ha he] at h
      have h2 : (Except.error e : Except PErr String) = .ok arn := congrArg Prod.snd h
      simp at h2

theorem stackPhase_pp_error_char (env : Env) (args : Args) (arn : String) (e : PErr)
    (hpp : process_params env.paramsFileContent arn args.role_name = .error e) :
    stackPhase env args arn =
      ([Event.log .info "Adding Role to account..."], .error e) := by
  unfold stackPhase
  rw [hpp]

theorem stackPhase_validate_error_char (env : Env) (args : Args) (arn : String)
    (ps : List PEntry) (e : PErr)
    (hpp : process_params env.paramsFileContent arn args.role_name = .ok ps)
    (hv : env.validateTemplate = .error e) :
    stackPhase env args arn =
      ([Event.log .info "Adding Role to account...",
        Event.log .debug ("Validating template " ++ args.template_path),
        Event.callValidateTemplate args.template_path], .error e) := by
  unfold stackPhase
  rw [hpp, hv]
  simp

theorem stackPhase_create_ok_char (env : Env) (args : Args) (arn : String)
    (ps : List PEntry) (sid : String)
    (hpp : process_params env.paramsFileContent arn args.role_name = .ok ps)
    (hv : env.validateTemplate = .ok ())
    (hc : env.createStack = .ok sid) :
    stackPhase env args arn =
      ([Event.log .info "Adding Role to account...",
        Event.log .debug ("Validating template " ++ args.template_path),
        Event.callValidateTemplate args.template_path,
        Event.callCreateStack args.stack_name args.template_path ps,
        Event.log .info ("Stack created. ID: " ++ sid)], .ok ()) := by
  unfold stackPhase
  rw [hpp, hv, hc]
  simp

theorem stackPhase_noupdate_char (env : Env) (args : Args) (arn : String)
    (ps : List PEntry)
    (hpp : process_params env.paramsFileContent arn args.role_name = .ok ps)
    (hv : env.validateTemplate = .ok ())
    (hc : env.createStack = .error .stackExists)
    (hu : env.updateStack = .error .noUpdateToPerform) :
    stackPhase env args arn =
      ([Event.log .info "Adding Role to account...",
        Event.log .debug ("Validating template " ++ args.template_path),
        Event.callValidateTemplate args.template_path,
        Event.callCreateStack args.stack_name args.template_path ps,
        Event.log .info ("Stack " ++ args.stack_name ++
          " already exists. Updating stack instead."),
        Event.callUpdateStack args.stack_name args.template_path ps,
        Event.log .debug "Stack does not require Updating."], .ok ()) := by
  unfold stackPhase
  rw [hpp, hv, hc, hu]
  simp

theorem stackPhase_update_ok_char (env : Env) (args : Args) (arn : String)
    (ps : List PEntry) (resp : String)
    (hpp : process_params env.paramsFileContent arn args.role_name = .ok ps)
    (hv : env.validateTemplate = .ok ())
    (hc : env.createStack = .error .stackExists)
    (hu : env.updateStack = .ok resp) :
    stackPhase env args arn =
      ([Event.log .info "Adding Role to account...",
        Event.log .debug ("Validating template " ++ args.template_path),
        Event.callValidateTemplate args.template_path,
        Event.callCreateStack args.stack_name args.template_path ps,
        Event.log .info ("Stack " ++ args.stack_name ++
          " already exists. Updating stack instead."),
        Event.callUpdateStack args.stack_name args.template_path ps,
        Event.log .debug "Stack updated successfully."], .ok ()) := by
  unfold stackPhase
  rw [hpp, hv, hc, hu]
  simp

theorem stackPhase_create_fails_char (env : Env) (args : Args) (arn : String)
    (ps : List PEntry) (ce : PErr)
    (hpp : process_params env.paramsFileContent arn args.role_name = .ok ps)
    (hv : env.validateTemplate = .ok ())
    (hc : env.createStack = .error ce)
    (hce : ce ≠ PErr.stackExists) :
    stackPhase env args arn =
      ([Event.log .info "Adding Role to account...",
        Event.log .debug ("Validating template " ++ args.template_path),
        Event.callValidateTemplate args.template_path,
        Event.callCreateStack args.stack_name args.template_path ps], .error ce) := by
  unfold stackPhase
  rw [hpp, hv, hc]
  simp [hce]

theorem stackPhase_update_fails_char (env : Env) (args : Args) (arn : String)
    (ps : List PEntry) (ue : PErr)
    (hpp : process_params env.paramsFileContent arn args.role_name = .ok ps)
    (hv : env.validateTemplate = .ok ())
    (hc : env.createStack = .error .stackExists)
    (hu : env.updateStack = .error ue)
    (hue : ue ≠ PErr.noUpdateToPerform) :
    stackPhase env args arn =
      ([Event.log .info "Adding Role to account...",
        Event.log .debug ("Validating template " ++ args.template_path),
        Event.callValidateTemplate args.template_path,
        Event.callCreateStack args.stack_name args.template_path ps,
        Event.log .info ("Stack " ++ args.stack_name ++
          " already exists. Updating stack instead."),
        Event.callUpdateStack args.stack_name args.template_path ps], .error ue) := by
  unfold stackPhase
  rw [hpp, hv, hc, hu]
  simp [hue]

theorem stackPhase_facts (env : Env) (args : Args) (arn : String) :
    noMutationBeforeValidate (stackPhase env args arn).1 = true ∧
    ((stackPhase env args arn).2 = .ok () → env.validateTemplate = .ok () ∧
      (stackPhase env args arn).1.any isValidateCall = true) ∧
    ((stackPhase env args arn).1.any isMutationCall = true →
      env.validateTemplate = .ok ()) ∧
    (∀ err, env.validateTemplate = .error err →
      (stackPhase env args arn).1.any isMutationCall = false ∧
      (stackPhase env args arn).2 ≠ .ok ()) ∧
    (stackPhase env args arn).1.any isManifestEmission = false ∧
    ((stackPhase env args arn).1.any isValidateCall = true ∨
      ((stackPhase env args arn).1.any isMutationCall = false ∧
       (stackPhase env args arn).1.any isValidateCall = false)) := by
  unfold stackPhase
  cases hpp : process_params env.paramsFileContent arn args.role_name with
  | error e =>
    simp [noMutationBeforeValidate, isMutationCall, isValidateCall, isManifestEmission]
  | ok ps =>
    cases hv : env.validateTemplate with
    | error e =>
      simp [noMutationBeforeValidate, isMutationCall, isValidateCall, isManifestEmission]
    | ok uv =>
      cases uv
      cases hc : env.createStack with
      | ok sid =>
        simp [noMutationBeforeValidate, isMutationCall, isValidateCall, isManifestEmission]
      | error ce =>
        by_cases hce : ce = PErr.stackExists
        · subst hce
          simp only [if_pos rfl]
          cases hu : env.updateStack with
          | ok resp =>
            simp [noMutationBeforeValidate, isMutationCall, isValidateCall,
              isManifestEmission]
          | error ue =>
            by_cases hue : ue = PErr.noUpdateToPerform
            · subst hue
              simp [noMutationBeforeValidate, isMutationCall, isValidateCall,
                isManifestEmission]
            · simp [hue, noMutationBeforeValidate, isMutationCall, isValidateCall,
                isManifestEmission]
        · simp [hce, noMutationBeforeValidate, isMutationCall, isValidateCall,
            isManifestEmission]

theorem stackPhase_mutation_params (env : Env) (args : Args) (arn : String)
    (stack path : String) (ps : List PEntry)
    (h : Event.callCreateStack stack path ps ∈ (stackPhase env args arn).1 ∨
         Event.callUpdateStack stack path ps ∈ (stackPhase env args arn).1) :
    process_params env.paramsFileContent arn args.role_name = .ok ps := by
  cases hpp : process_params env.paramsFileContent arn args.role_name with
  | error e =>
    rw [stackPhase_pp_error_char env args arn e hpp] at h
    rcases h with h | h <;> simp at h
  | ok ps' =>
    cases hv : env.validateTemplate with
    | error e =>
      rw [stackPhase_validate_error_char env args arn ps' e hpp hv] at h
      rcases h with h | h <;> simp at h
    | ok uv =>
      cases uv
      cases hc : env.createStack with
      | ok sid =>
        rw [stackPhase_create_ok_char env args arn ps' sid hpp hv hc] at h
        rcases h with h | h <;> simp at h
        obtain ⟨-, -, rfl⟩ := h
        rfl
      | error ce =>
        by_cases hce : ce = PErr.stackExists
        · subst hce
          cases hu : env.updateStack with
          | ok resp =>
            rw [stackPhase_update_ok_char env args arn ps' resp hpp hv hc hu] at h
            rcases h with h | h <;> simp at h <;>
              (obtain ⟨-, -, rfl⟩ := h; rfl)
          | error ue =>
            by_cases hue : ue = PErr.noUpdateToPerform
            · subst hue
              rw [stackPhase_noupdate_char env args arn ps' hpp hv hc hu] at h
              rcases h with h | h <;> simp at h <;>
                (obtain ⟨-, -, rfl⟩ := h; rfl)
            · rw [stackPhase_update_fails_char env args arn ps' ue hpp hv hc hu hue] at h
              rcases h with h | h <;> simp at h <;>
                (obtain ⟨-, -, rfl⟩ := h; rfl)
        · rw [stackPhase_create_fails_char env args arn ps' ce hpp hv hc hce] at h
          rcases h with h | h <;> simp at h
          obtain ⟨-, -, rfl⟩ := h
          rfl

theorem rolePhase_ok_char (env : Env) (args : Args) (trust : String)
    (h : env.lookUpRole = .ok trust) :
    rolePhase env args =
      ([Event.log .info "Looking up role ARN...",
        Event.callLookUpRole args.role_name,
        Event.log .debug ("Role Found: " ++ trust)], .ok trust) := by
  unfold rolePhase
  rw [h]
  simp

theorem rolePhase_notfound_char (env : Env) (args : Args)
    (h : env.lookUpRole = .error .roleNotFound) :
    rolePhase env args =
      ([Event.log .info "Looking up role ARN...",
        Event.callLookUpRole args.role_name,
        Event.log .warning ("Couldn't find role " ++ args.role_name)],
       .error .roleNotFound) := by
  unfold rolePhase
  rw [h]
  simp

theorem rolePhase_facts (env : Env) (args : Args) :
    (rolePhase env args).1.any isMutationCall = false ∧
    (rolePhase env args).1.any isValidateCall = false ∧
    (rolePhase env args).1.any isManifestEmission = false := by
  unfold rolePhase
  cases hr : env.lookUpRole with
  | ok trust => simp [isMutationCall, isValidateCall, isManifestEmission]
  | error e =>
    by_cases he : e = PErr.roleNotFound
    · subst he
      simp [isMutationCall, isValidateCall, isManifestEmission]
    · simp [he, isMutationCall, isValidateCall, isManifestEmission]

theorem manifestPhase_facts (args : Args) (trust arn : String) :
    (manifestPhase args trust arn).any isMutationCall = false ∧
    (manifestPhase args trust arn).any isValidateCall = false := by
  simp [manifestPhase, isMutationCall, isValidateCall]

theorem rolePhase_other_error_char (env : Env) (args : Args) (e : PErr)
    (h : env.lookUpRole = .error e) (hne : e ≠ PErr.roleNotFound) :
    rolePhase env args =
      ([Event.log .info "Looking up role ARN...",
        Event.callLookUpRole args.role_name], .error e) := by
  unfold rolePhase
  rw [h]
  simp [hne]

theorem not_mem_of_any_false (e : Event) (l : List Event) (f : Event → Bool)
    (hf : f e = true) (h : l.any f = false) : e ∉ l := by
  intro hmem
  have ht : l.any f = true := List.any_eq_true.mpr ⟨e, hmem, hf⟩
  rw [h] at ht
  cases ht

theorem nmbv_of_no_mutation (l : List Event) (h : l.any isMutationCall = false) :
    noMutationBeforeValidate l = true := by
  induction l with
  | nil => rfl
  | cons e t ih =>
    simp only [List.any_cons, Bool.or_eq_false_iff] at h
    unfold noMutationBeforeValidate
    by_cases hv : isValidateCall e = true
    · rw [if_pos hv]
    · rw [if_neg hv]
      simp [h.1, ih h.2]

theorem nmbv_append_clean (l1 l2 : List Event)
    (h1 : l1.any isMutationCall = false) (h2 : l1.any isValidateCall = false) :
    noMutationBeforeValidate (l1 ++ l2) = noMutationBeforeValidate l2 := by
  induction l1 with
  | nil => rfl
  | cons e t ih =>
    simp only [List.any_cons, Bool.or_eq_false_iff] at h1 h2
    rw [List.cons_append]
    show (if isValidateCall e = true then true
          else !isMutationCall e && noMutationBeforeValidate (t ++ l2)) =
        noMutationBeforeValidate l2
    rw [if_neg (by simp [h2.1]), ih h1.2 h2.2]
    simp [h1.1]

theorem nmbv_append_left (l1 l2 : List Event)
    (h1 : noMutationBeforeValidate l1 = true) (h2 : l1.any isValidateCall = true) :
    noMutationBeforeValidate (l1 ++ l2) = true := by
  induction l1 with
  | nil => simp at h2
  | cons e t ih =>
    rw [List.cons_append]
    unfold noMutationBeforeValidate at h1 ⊢
    by_cases hv : isValidateCall e = true
    · rw [if_pos hv]
    · rw [if_neg hv] at h1 ⊢
      simp only [List.any_cons, Bool.or_eq_true] at h2
      rcases h2 with h2 | h2
      · exact absurd h2 hv
      · simp only [Bool.and_eq_true] at h1
        simp [h1.1, ih h1.2 h2]

theorem runMain_provider_error (env : Env) (args : Args) (ev1 : List Event) (e : PErr)
    (h : providerPhase env args = (ev1, .error e)) :
    runMain env args = (ev1, .error e) := by
  unfold runMain
  rw [h]

theorem runMain_stack_error (env : Env) (args : Args) (ev1 : List Event) (arn : String)
    (ev2 : List Event) (e : PErr)
    (h1 : providerPhase env args = (ev1, .ok arn))
    (h2 : stackPhase env args arn = (ev2, .error e)) :
    runMain env args = (ev1 ++ ev2, .error e) := by
  unfold runMain
  rw [h1]
  dsimp only
  rw [h2]

theorem runMain_role_error (env : Env) (args : Args) (ev1 : List Event) (arn : String)
    (ev2 ev3 : List Event) (e : PErr)
    (h1 : providerPhase env args = (ev1, .ok arn))
    (h2 : stackPhase env args arn = (ev2, .ok ()))
    (h3 : rolePhase env args = (ev3, .error e)) :
    runMain env args = (ev1 ++ ev2 ++ ev3, .error e) := by
  unfold runMain
  rw [h1]
  dsimp only
  rw [h2]
  dsimp only
  rw [h3]

theorem runMain_success_eq (env : Env) (args : Args) (ev1 : List Event) (arn : String)
    (ev2 ev3 : List Event) (trust : String)
    (h1 : providerPhase env args = (ev1, .ok arn))
    (h2 : stackPhase env args arn = (ev2, .ok ()))
    (h3 : rolePhase env args = (ev3, .ok trust)) :
    runMain env args = (ev1 ++ ev2 ++ ev3 ++ manifestPhase args trust arn, .ok ()) := by
  unfold runMain
  rw [h1]
  dsimp only
  rw [h2]
  dsimp only
  rw [h3]

theorem runMain_mutation_in_stack (env : Env) (args : Args) (ev1 : List Event)
    (arn : String) (h : providerPhase env args = (ev1, .ok arn)) (e : Event)
    (he : e ∈ (runMain env args).1) (hm : isMutationCall e = true) :
    e ∈ (stackPhase env args arn).1 := by
  obtain ⟨hpm, -, -⟩ := providerPhase_facts env args
  have hev1 : ev1.any isMutationCall = false := by rw [h] at hpm; exact hpm
  rcases hsp : stackPhase env args arn with ⟨ev2, res2⟩
  cases res2 with
  | error er =>
    rw [runMain_stack_error env args ev1 arn ev2 er h hsp] at he
    rcases List.mem_append.mp he with h1 | h2
    · exact absurd h1 (not_mem_of_any_false e ev1 isMutationCall hm hev1)
    · exact h2
  | ok u =>
    cases u
    obtain ⟨hrm, -, -⟩ := rolePhase_facts env args
    rcases hrp : rolePhase env args with ⟨ev3, res3⟩
    have hev3 : ev3.any isMutationCall = false := by rw [hrp] at hrm; exact hrm
    cases res3 with
    | error er =>
      rw [runMain_role_error env args ev1 arn ev2 ev3 er h hsp hrp] at he
      rcases List.mem_append.mp he with h12 | h3
      · rcases List.mem_append.mp h12 with h1 | h2
        · exact absurd h1 (not_mem_of_any_false e ev1 isMutationCall hm hev1)
        · exact h2
      · exact absurd h3 (not_mem_of_any_false e ev3 isMutationCall hm hev3)
    | ok trust =>
      rw [runMain_success_eq env args ev1 arn ev2 ev3 trust h hsp hrp] at he
      obtain ⟨hmm, -⟩ := manifestPhase_facts args trust arn
      rcases List.mem_append.mp he with h123 | h4
      · rcases List.mem_append.mp h123 with h12 | h3
        · rcases List.mem_append.mp h12 with h1 | h2
          · exact absurd h1 (not_mem_of_any_false e ev1 isMutationCall hm hev1)
          · exact h2
        · exact absurd h3 (not_mem_of_any_false e ev3 isMutationCall hm hev3)
      · exact absurd h4
          (not_mem_of_any_false e (manifestPhase args trust arn) isMutationCall hm hmm)

theorem runMain_success_shape (env : Env) (args : Args) (ev1 : List Event)
    (arn : String) (h : providerPhase env args = (ev1, .ok arn))
    (hok : (runMain env args).2 = .ok ()) :
    ∃ ev2 trust, stackPhase env args arn = (ev2, .ok ()) ∧ env.lookUpRole = .ok trust ∧
      runMain env args = (ev1 ++ ev2 ++
        [Event.log .info "Looking up role ARN...",
         Event.callLookUpRole args.role_name,
         Event.log .debug ("Role Found: " ++ trust)] ++
        manifestPhase args trust arn, .ok ()) := by
  rcases hsp : stackPhase env args arn with ⟨ev2, res2⟩
  cases res2 with
  | error er =>
    rw [runMain_stack_error env args ev1 arn ev2 er h hsp] at hok
    simp at hok
  | ok u =>
    cases u
    cases hr : env.lookUpRole with
    | ok trust =>
      exact ⟨ev2, trust, rfl, rfl,
        runMain_success_eq env args ev1 arn ev2 _ trust h hsp
          (rolePhase_ok_char env args trust hr)⟩
    | error er =>
      by_cases he : er = PErr.roleNotFound
      · subst he
        rw [runMain_role_error env args ev1 arn ev2 _ PErr.roleNotFound h hsp
          (rolePhase_notfound_char env args hr)] at hok
        simp at hok
      · rw [runMain_role_error env args ev1 arn ev2 _ er h hsp
          (rolePhase_other_error_char env args er hr he)] at hok
        simp at hok

/-- C5: in every run, no stack mutation (create or update) is invoked before a
`validate_template` call; a mutation occurs only when validation succeeded;
and if validation fails the run aborts with no stack mutation attempted. -/
theorem c5_validate_before_mutation (env : Env) (args : Args) :
    noMutationBeforeValidate (runMain env args).1 = true ∧
    ((runMain env args).1.any isMutationCall = true → env.validateTemplate = .ok ()) ∧
    (∀ err, env.validateTemplate = .error err →
      (runMain env args).1.any isMutationCall = false ∧
      (runMain env args).2 ≠ .ok ()) := by
  obtain ⟨hpm, hpv, -⟩ := providerPhase_facts env args
  rcases hpp : providerPhase env args with ⟨ev1, res1⟩
  have hev1m : ev1.any isMutationCall = false := by rw [hpp] at hpm; exact hpm
  have hev1v : ev1.any isValidateCall = false := by rw [hpp] at hpv; exact hpv
  cases res1 with
  | error e =>
    rw [runMain_provider_error env args ev1 e hpp]
    refine ⟨nmbv_of_no_mutation ev1 hev1m, ?_, ?_⟩
    · intro hmut
      rw [hev1m] at hmut
      cases hmut
    · intro err _
      exact ⟨hev1m, by simp⟩
  | ok arn =>
    obtain ⟨hs1, hs2, hs3, hs4, -, -⟩ := stackPhase_facts env args arn
    rcases hsp : stackPhase env args arn with ⟨ev2, res2⟩
    have hs1' : noMutationBeforeValidate ev2 = true := by rw [hsp] at hs1; exact hs1
    have hs3' : ev2.any isMutationCall = true → env.validateTemplate = .ok () := by
      rw [hsp] at hs3; exact hs3
    cases res2 with
    | error e =>
      rw [runMain_stack_error env args ev1 arn ev2 e hpp hsp]
      refine ⟨?_, ?_, ?_⟩
      · rw [nmbv_append_clean ev1 ev2 hev1m hev1v]
        exact hs1'
      · intro hmut
        rw [List.any_append, hev1m, Bool.false_or] at hmut
        exact hs3' hmut
      · intro err hverr
        have hs4' := hs4 err hverr
        rw [hsp] at hs4'
        exact ⟨by rw [List.any_append, hev1m, hs4'.1]; rfl, by simp⟩
    | ok u =>
      cases u
      have hs2' := hs2 (by rw [hsp])
      obtain ⟨hvok, hvcall⟩ := hs2'
      have hvcall' : ev2.any isValidateCall = true := by rw [hsp] at hvcall; exact hvcall
      obtain ⟨hrm, hrv, -⟩ := rolePhase_facts env args
      rcases hrp : rolePhase env args with ⟨ev3, res3⟩
      cases res3 with
      | error e =>
        rw [runMain_role_error env args ev1 arn ev2 ev3 e hpp hsp hrp]
        refine ⟨?_, fun _ => hvok, ?_⟩
        · rw [List.append_assoc, nmbv_append_clean ev1 (ev2 ++ ev3) hev1m hev1v]
          exact nmbv_append_left ev2 ev3 hs1' hvcall'
        · intro err hverr
          rw [hvok] at hverr
          cases hverr
      | ok trust =>
        rw [runMain_success_eq env args ev1 arn ev2 ev3 trust hpp hsp hrp]
        refine ⟨?_, fun _ => hvok, ?_⟩
        · rw [List.append_assoc, List.append_assoc,
            nmbv_append_clean ev1 (ev2 ++ (ev3 ++ manifestPhase args trust arn)) hev1m hev1v]
          exact nmbv_append_left ev2 (ev3 ++ manifestPhase args trust arn) hs1' hvcall'
        · intro err hverr
          rw [hvok] at hverr
          cases hverr

/-- C1: for every parameter template `T` (entries each carrying a
`ParameterKey`) and every provider reference `p` and role name `r`,
`process_params` succeeds and modifies only the entries whose key matches the
`SAMLProviderARN` or `RoleName` markers, binding their values to `p` and `r`
respectively; every other entry is identical to its counterpart in `T`, and
the output has the same length and the same (pointwise, hence multiset) keys
as `T`. -/
theorem c1_parameter_binder_frame (T : List PEntry) (p r : String)
    (hkeys : ∀ e ∈ T, e.parameterKey ≠ none) :
    ∃ out, process_params T p r = .ok out ∧
      out.length = T.length ∧
      out.map PEntry.parameterKey = T.map PEntry.parameterKey ∧
      List.Forall₂ (boundEntry p r) T out := by
  obtain ⟨out, hout⟩ := process_params_ok_of_keys p r T hkeys
  have hf := process_params_forall2 p r T out hout
  exact ⟨out, hout, hf.length_eq.symm, forall2_keys_eq p r T out hf, hf⟩

/-- Witness for C1 at a concrete three-entry template. -/
theorem c1_parameter_binder_frame_witness :
    (∀ e ∈ sampleTemplate, e.parameterKey ≠ none) ∧
    ∃ out, process_params sampleTemplate "arn:aws:iam::1:saml-provider/p" "MyRole" = .ok out ∧
      out.length = sampleTemplate.length ∧
      out.map PEntry.parameterKey = sampleTemplate.map PEntry.parameterKey ∧
      List.Forall₂ (boundEntry "arn:aws:iam::1:saml-provider/p" "MyRole") sampleTemplate out :=
  ⟨by decide,
   c1_parameter_binder_frame sampleTemplate "arn:aws:iam::1:saml-provider/p" "MyRole" (by decide)⟩

/-- C9: marker recognition in `process_params` is substring containment, not
exact equality: any entry whose key contains `SAMLProviderARN` (and not
`RoleName`) has its value overridden to the provider ARN, and any entry whose
key contains `RoleName` — including keys that also contain `SAMLProviderARN`,
where both overrides apply — ends with the role name as its value, exactly as
if the key were the marker itself. -/
theorem c9_substring_override (arn role : String) (e : PEntry) (k : String)
    (hk : e.parameterKey = some k) :
    (strContains k "SAMLProviderARN" = true → strContains k "RoleName" = false →
      processEntry arn role e = .ok { e with parameterValue := some arn }) ∧
    (strContains k "RoleName" = true →
      processEntry arn role e = .ok { e with parameterValue := some role }) :=
  ⟨fun h1 h2 => processEntry_arn arn role e k hk h1 h2,
   fun h2 => processEntry_role arn role e k hk h2⟩

/-- Witness for C9: the key `TrustRoleName` strictly contains `RoleName` and is
overridden, and a key containing both markers ends with the role name. -/
theorem c9_substring_override_witness :
    strContains "TrustRoleName" "RoleName" = true ∧
    "TrustRoleName" ≠ "RoleName" ∧
    processEntry "P" "R" ⟨some "TrustRoleName", some "v"⟩ =
      .ok ⟨some "TrustRoleName", some "R"⟩ ∧
    processEntry "P" "R" ⟨some "SAMLProviderARNRoleName", some "v"⟩ =
      .ok ⟨some "SAMLProviderARNRoleName", some "R"⟩ :=
  ⟨by decide, by decide,
   (c9_substring_override "P" "R" ⟨some "TrustRoleName", some "v"⟩ "TrustRoleName" rfl).2
     (by decide),
   (c9_substring_override "P" "R" ⟨some "SAMLProviderARNRoleName", some "v"⟩
     "SAMLProviderARNRoleName" rfl).2 (by decide)⟩

/-- C6: manifest generation is deterministic — serializing the blob built from
the same four inputs twice yields byte-identical output — and the serialized
object's keys appear in sorted (lexicographic) order. -/
theorem c6_manifest_deterministic_sorted
    (role_name role_description trust_arn provider_arn : String) :
    jsonDumpsSorted (generate_ad_role role_name role_description trust_arn provider_arn) =
      jsonDumpsSorted (generate_ad_role role_name role_description trust_arn provider_arn) ∧
    (sortByKey (generate_ad_role role_name role_description trust_arn provider_arn)).map
        Prod.fst =
      ["providerReference", "roleDescription", "roleName", "trustReference"] ∧
    List.Chain' (fun a b => strLeB a b = true)
      ((sortByKey (generate_ad_role role_name role_description trust_arn provider_arn)).map
        Prod.fst) := by
  have hkeys : (sortByKey
      (generate_ad_role role_name role_description trust_arn provider_arn)).map Prod.fst =
      ["providerReference", "roleDescription", "roleName", "trustReference"] := by
    rfl
  refine ⟨rfl, hkeys, ?_⟩
  rw [hkeys]
  exact List.chain'_cons.mpr ⟨by decide, List.chain'_cons.mpr ⟨by decide,
    List.chain'_cons.mpr ⟨by decide, List.chain'_singleton _⟩⟩⟩

/-- C7 counterexample: the claim that each optional CLI argument has a default
value fails at `params_file`, which is declared optional with no `default=`
(argparse then supplies `None`). -/
theorem c7_cli_surface_counterexample : ¬ c7ClaimedSurface := fun h =>
  (h.2 (ArgSpec.mk "params_file" false none) (by decide) rfl) rfl

/-- C7 amended: exactly the metadata and template locations are required;
stack name, provider name, role name and role description are optional with
the fixed defaults below; the parameters-file location is optional but has no
declared default value. -/
theorem c7_cli_surface_amended :
    (∀ s ∈ cliArgs, s.required = true ↔
      (s.dest = "saml_metadata" ∨ s.dest = "template_path")) ∧
    (∀ s ∈ cliArgs, s.required = false →
      s.dest = "params_file" ∨ s.default ≠ none) ∧
    (∃ s ∈ cliArgs, s.dest = "params_file" ∧ s.required = false ∧ s.default = none) ∧
    (∃ s ∈ cliArgs, s.dest = "stack_name" ∧ s.required = false ∧
      s.default = some "federated-trust-role-and-policy") ∧
    (∃ s ∈ cliArgs, s.dest = "provider_name" ∧ s.required = false ∧
      s.default = some "new_saml_provider") ∧
    (∃ s ∈ cliArgs, s.dest = "role_name" ∧ s.required = false ∧
      s.default = some "new_saml_role") ∧
    (∃ s ∈ cliArgs, s.dest = "role_description" ∧ s.required = false ∧
      s.default = some "A role created by") := by
  decide

/-- C2: in a run where `create_stack` fails with `StackExistsError` and the
subsequent `update_stack` fails with `NoUpdateToPerformError`, the stack
reconciliation step returns success (neither error escapes it), the run
proceeds to role resolution, and when the role is found the run succeeds and
emits the manifest. -/
theorem c2_stack_recovery_converges (env : Env) (args : Args) (arn : String)
    (ps : List PEntry)
    (hprov : providerResolvesTo env arn)
    (hpp : process_params env.paramsFileContent arn args.role_name = .ok ps)
    (hv : env.validateTemplate = .ok ())
    (hc : env.createStack = .error .stackExists)
    (hu : env.updateStack = .error .noUpdateToPerform) :
    (stackPhase env args arn).2 = .ok () ∧
    Event.callLookUpRole args.role_name ∈ (runMain env args).1 ∧
    (∀ trust, env.lookUpRole = .ok trust →
      (runMain env args).2 = .ok () ∧
      (runMain env args).1.any isManifestEmission = true) := by
  have hsp := stackPhase_noupdate_char env args arn ps hpp hv hc hu
  obtain ⟨ev1, hp1⟩ : ∃ ev1, providerPhase env args = (ev1, .ok arn) := by
    rcases hprov with ha | ⟨ha, hl⟩
    · exact ⟨_, providerPhase_ok_char env args arn ha⟩
    · exact ⟨_, providerPhase_exists_char env args arn ha hl⟩
  refine ⟨by rw [hsp], ?_, ?_⟩
  · cases hr : env.lookUpRole with
    | ok trust =>
      rw [runMain_success_eq env args ev1 arn _ _ trust hp1 hsp
        (rolePhase_ok_char env args trust hr)]
      simp
    | error e =>
      by_cases he : e = PErr.roleNotFound
      · subst he
        rw [runMain_role_error env args ev1 arn _ _ _ hp1 hsp
          (rolePhase_notfound_char env args hr)]
        simp
      · rw [runMain_role_error env args ev1 arn _ _ _ hp1 hsp
          (rolePhase_other_error_char env args e hr he)]
        simp
  · intro trust hr
    rw [runMain_success_eq env args ev1 arn _ _ trust hp1 hsp
      (rolePhase_ok_char env args trust hr)]
    exact ⟨rfl, by simp [manifestPhase, isManifestEmission]⟩

/-- Witness for C2: an account whose stack exists and needs no update still
converges, looks up the role and emits the manifest. -/
theorem c2_stack_recovery_converges_witness :
    (stackPhase envC2 sampleArgs "arn-provider").2 = .ok () ∧
    Event.callLookUpRole sampleArgs.role_name ∈ (runMain envC2 sampleArgs).1 ∧
    ((runMain envC2 sampleArgs).2 = .ok () ∧
      (runMain envC2 sampleArgs).1.any isManifestEmission = true) := by
  have h := c2_stack_recovery_converges envC2 sampleArgs "arn-provider" psHappy
    (Or.inl rfl) rfl rfl rfl rfl
  exact ⟨h.1, h.2.1, h.2.2 "arn-role" rfl⟩

/-- C3: when provider registration fails with `SAMLProviderExistsError`, the
orchestrator calls the provider lookup; on success the returned reference is
the provider reference for the rest of the run — it is the ARN bound into the
stack parameters and the provider reference in the emitted manifest; if the
lookup itself fails the run aborts at once with that error: no stack call, no
role lookup, no manifest. -/
theorem c3_provider_exists_lookup (env : Env) (args : Args)
    (ha : env.addSamlProvider = .error .samlProviderExists) :
    (∀ arn, env.lookUpSamlProvider = .ok arn →
      Event.callLookUpSamlProvider args.provider_name ∈ (runMain env args).1 ∧
      (∀ stack path ps,
        Event.callCreateStack stack path ps ∈ (runMain env args).1 ∨
        Event.callUpdateStack stack path ps ∈ (runMain env args).1 →
        providerArnBound arn ps) ∧
      ((runMain env args).2 = .ok () → ∃ trust,
        Event.emitManifest (jsonDumpsSorted (generate_ad_role args.role_name
          args.role_description trust arn)) ∈ (runMain env args).1)) ∧
    (∀ e2, env.lookUpSamlProvider = .error e2 →
      (runMain env args).2 = .error e2 ∧
      (runMain env args).1.any isMutationCall = false ∧
      (runMain env args).1.any isManifestEmission = false ∧
      (∀ r, Event.callLookUpRole r ∉ (runMain env args).1)) := by
  constructor
  · intro arn hl
    have hp1 := providerPhase_exists_char env args arn ha hl
    refine ⟨?_, ?_, ?_⟩
    · -- the lookup call is in the provider-phase prefix of every trace
      rcases hsp : stackPhase env args arn with ⟨ev2, res2⟩
      cases res2 with
      | error er =>
        rw [runMain_stack_error env args _ arn ev2 er hp1 hsp]
        simp
      | ok u =>
        cases u
        rcases hrp : rolePhase env args with ⟨ev3, res3⟩
        cases res3 with
        | error er =>
          rw [runMain_role_error env args _ arn ev2 ev3 er hp1 hsp hrp]
          simp
        | ok trust =>
          rw [runMain_success_eq env args _ arn ev2 ev3 trust hp1 hsp hrp]
          simp
    · intro stack path ps hmem
      have hpp : process_params env.paramsFileContent arn args.role_name = .ok ps := by
        apply stackPhase_mutation_params env args arn stack path ps
        rcases hmem with hmem | hmem
        · exact Or.inl (runMain_mutation_in_stack env args _ arn hp1 _ hmem rfl)
        · exact Or.inr (runMain_mutation_in_stack env args _ arn hp1 _ hmem rfl)
      exact (process_params_bounds arn args.role_name env.paramsFileContent ps hpp).2
    · intro hok
      obtain ⟨ev2, trust, -, -, heq⟩ := runMain_success_shape env args _ arn hp1 hok
      refine ⟨trust, ?_⟩
      rw [heq]
      simp [manifestPhase]
  · intro e2 hl
    rw [runMain_provider_error env args _ e2
      (providerPhase_lookup_fails_char env args e2 ha hl)]
    refine ⟨rfl, ?_, ?_, ?_⟩
    · simp [isMutationCall]
    · simp [isManifestEmission]
    · intro r
      simp

/-- Witness for C3: with an existing provider the lookup result `arn-provider`
flows into the manifest, and with a failing lookup the run stops dead. -/
theorem c3_provider_exists_lookup_witness :
    Event.callLookUpSamlProvider sampleArgs.provider_name ∈ (runMain envC3 sampleArgs).1 ∧
    (∃ trust, Event.emitManifest (jsonDumpsSorted (generate_ad_role sampleArgs.role_name
      sampleArgs.role_description trust "arn-provider")) ∈ (runMain envC3 sampleArgs).1) := by
  have h := (c3_provider_exists_lookup envC3 sampleArgs rfl).1 "arn-provider" rfl
  exact ⟨h.1, h.2.2 rfl⟩

/-- C4: a `RoleNotFoundError` from the role lookup is logged as a warning
naming the missing role and re-raised unchanged: whatever recovery paths were
taken before, the run ends with that error and no manifest is emitted. -/
theorem c4_role_not_found_fatal (env : Env) (args : Args) (arn : String)
    (hprov : providerResolvesTo env arn)
    (hstack : (stackPhase env args arn).2 = .ok ())
    (hr : env.lookUpRole = .error .roleNotFound) :
    (runMain env args).2 = .error .roleNotFound ∧
    Event.log .warning ("Couldn't find role " ++ args.role_name) ∈ (runMain env args).1 ∧
    (runMain env args).1.any isManifestEmission = false := by
  obtain ⟨ev1, hp1⟩ : ∃ ev1, providerPhase env args = (ev1, .ok arn) := by
    rcases hprov with ha | ⟨ha, hl⟩
    · exact ⟨_, providerPhase_ok_char env args arn ha⟩
    · exact ⟨_, providerPhase_exists_char env args arn ha hl⟩
  obtain ⟨-, -, hpe⟩ := providerPhase_facts env args
  have hev1 : ev1.any isManifestEmission = false := by rw [hp1] at hpe; exact hpe
  obtain ⟨-, -, -, -, hs5, -⟩ := stackPhase_facts env args arn
  rcases hsp : stackPhase env args arn with ⟨ev2, res2⟩
  have hev2 : ev2.any isManifestEmission = false := by rw [hsp] at hs5; exact hs5
  rw [hsp] at hstack
  simp only at hstack
  subst hstack
  rw [runMain_role_error env args ev1 arn ev2 _ _ hp1 hsp
    (rolePhase_notfound_char env args hr)]
  refine ⟨rfl, by simp, ?_⟩
  simp [List.any_append, hev1, hev2, isManifestEmission]

/-- Witness for C4: a converged stack whose role is missing aborts with
`RoleNotFoundError` after warning about `new_saml_role`, with no manifest. -/
theorem c4_role_not_found_fatal_witness :
    (runMain envC4 sampleArgs).2 = .error .roleNotFound ∧
    Event.log .warning ("Couldn't find role " ++ sampleArgs.role_name) ∈
      (runMain envC4 sampleArgs).1 ∧
    (runMain envC4 sampleArgs).1.any isManifestEmission = false :=
  c4_role_not_found_fatal envC4 sampleArgs "arn-provider" (Or.inl rfl) rfl rfl

/-- Witness for C5: the happy run never mutates before validating, and a run
whose template fails validation aborts without any stack mutation. -/
theorem c5_validate_before_mutation_witness :
    noMutationBeforeValidate (runMain envHappy sampleArgs).1 = true ∧
    (runMain envC5 sampleArgs).1.any isMutationCall = false ∧
    (runMain envC5 sampleArgs).2 ≠ .ok () :=
  ⟨(c5_validate_before_mutation envHappy sampleArgs).1,
   ((c5_validate_before_mutation envC5 sampleArgs).2.2 PErr.invalidTemplate rfl).1,
   ((c5_validate_before_mutation envC5 sampleArgs).2.2 PErr.invalidTemplate rfl).2⟩

/-- C8: a parameters file containing an entry without the `ParameterKey` field
makes the Parameter Binder raise `KeyError`, which none of the orchestrator's
recovery handlers catch: the run fails with that error, never mutates the
stack, never looks up the role, and emits no manifest. -/
theorem c8_malformed_params_fatal (env : Env) (args : Args) (arn : String)
    (hprov : providerResolvesTo env arn)
    (hbad : ∃ e ∈ env.paramsFileContent, e.parameterKey = none) :
    (runMain env args).2 = .error (.keyError "ParameterKey") ∧
    (runMain env args).1.any isManifestEmission = false ∧
    (runMain env args).1.any isMutationCall = false ∧
    (∀ r, Event.callLookUpRole r ∉ (runMain env args).1) := by
  have hpp := process_params_error_of_missing_key arn args.role_name
    env.paramsFileContent hbad
  have hsp := stackPhase_pp_error_char env args arn _ hpp
  rcases hprov with ha | ⟨ha, hl⟩
  · rw [runMain_stack_error env args _ arn _ _ (providerPhase_ok_char env args arn ha) hsp]
    refine ⟨rfl, ?_, ?_, ?_⟩
    · simp [isManifestEmission]
    · simp [isMutationCall]
    · intro r
      simp
  · rw [runMain_stack_error env args _ arn _ _
      (providerPhase_exists_char env args arn ha hl) hsp]
    refine ⟨rfl, ?_, ?_, ?_⟩
    · simp [isManifestEmission]
    · simp [isMutationCall]
    · intro r
      simp

/-- Witness for C8: a parameters file whose second entry lacks `ParameterKey`
aborts the run with `KeyError` before any stack call. -/
theorem c8_malformed_params_fatal_witness :
    (runMain envC8 sampleArgs).2 = .error (.keyError "ParameterKey") ∧
    (runMain envC8 sampleArgs).1.any isManifestEmission = false ∧
    (runMain envC8 sampleArgs).1.any isMutationCall = false := by
  have h := c8_malformed_params_fatal envC8 sampleArgs "arn-provider" (Or.inl rfl)
    ⟨⟨none, some "y"⟩, by decide, rfl⟩
  exact ⟨h.1, h.2.1, h.2.2.1⟩

/-- C10: in every successful run a single role name — `args.role_name` — is
used in all three places it matters: it is the value bound to every
`RoleName`-marked parameter entry passed to the stack calls, the name given to
the role lookup, and the roleName recorded in the emitted manifest. -/
theorem c10_role_name_consistency (env : Env) (args : Args)
    (hok : (runMain env args).2 = .ok ()) :
    Event.callLookUpRole args.role_name ∈ (runMain env args).1 ∧
    (∀ stack path ps,
      Event.callCreateStack stack path ps ∈ (runMain env args).1 ∨
      Event.callUpdateStack stack path ps ∈ (runMain env args).1 →
      roleNameBound args.role_name ps) ∧
    (∃ trust arn, Event.emitManifest (jsonDumpsSorted (generate_ad_role args.role_name
      args.role_description trust arn)) ∈ (runMain env args).1) := by
  rcases hp : providerPhase env args with ⟨ev1, res1⟩
  cases res1 with
  | error e =>
    rw [runMain_provider_error env args ev1 e hp] at hok
    simp at hok
  | ok arn =>
    obtain ⟨ev2, trust, hsp, hr, heq⟩ := runMain_success_shape env args ev1 arn hp hok
    refine ⟨?_, ?_, ?_⟩
    · rw [heq]
      simp
    · intro stack path ps hmem
      have hpp : process_params env.paramsFileContent arn args.role_name = .ok ps := by
        apply stackPhase_mutation_params env args arn stack path ps
        rcases hmem with hmem | hmem
        · exact Or.inl (runMain_mutation_in_stack env args ev1 arn hp _ hmem rfl)
        · exact Or.inr (runMain_mutation_in_stack env args ev1 arn hp _ hmem rfl)
      exact (process_params_bounds arn args.role_name env.paramsFileContent ps hpp).1
    · refine ⟨trust, arn, ?_⟩
      rw [heq]
      simp [manifestPhase]

/-- Witness for C10 at the happy-path run: the role lookup is called with the
configured role name, the bound parameters carry it, and the manifest records
it. -/
theorem c10_role_name_consistency_witness :
    Event.callLookUpRole sampleArgs.role_name ∈ (runMain envHappy sampleArgs).1 ∧
    roleNameBound sampleArgs.role_name psHappy ∧
    (∃ trust arn, Event.emitManifest (jsonDumpsSorted (generate_ad_role sampleArgs.role_name
      sampleArgs.role_description trust arn)) ∈ (runMain envHappy sampleArgs).1) := by
  have h := c10_role_name_consistency envHappy sampleArgs rfl
  refine ⟨h.1, ?_, h.2.2⟩
  exact h.2.1 sampleArgs.stack_name sampleArgs.template_path psHappy
    (Or.inl (by decide))

end Provisioner
